import Mathlib

/-!
Shallow embedding of the Hyperscape offline asset-optimization pipeline
(`scripts/bake-lod.py`, `scripts/decimate-vrm.py`, `scripts/optimize-avatars.py`,
`scripts/decimate-vegetation.py`).

Python floats are modelled as exact rationals (`ℚ`), Python `int(x)` on a
nonnegative value as the rational floor, machine paths/strings as `String`,
and the external Blender engine (mesh decimation results, post-transform
statistics) as explicit function parameters.  Python exceptions are modelled
with `Except String`; side effects (import / decimate / export / texture
pass / triangulate) are recorded as a trace of `Effect` values.
-/

namespace Hyperscape

/-- Substring test on character lists: does `needle` occur contiguously
inside the second list?  Mirrors Python's `needle in haystack`. -/
def containsList (needle : List Char) : List Char → Bool
  | [] => needle.isEmpty
  | c :: rest => needle.isPrefixOf (c :: rest) || containsList needle rest

/-- Python's substring operator `sub in s` for strings. -/
def strContains (s sub : String) : Bool :=
  containsList sub.toList s.toList

/-- ASCII lower-casing of one character, as Python `str.lower()` does for
the ASCII file names this repository works with. -/
def charLower (c : Char) : Char :=
  if 65 ≤ c.toNat ∧ c.toNat ≤ 90 then Char.ofNat (c.toNat + 32) else c

/-- Python `s.lower()` (ASCII). -/
def strLower (s : String) : String :=
  String.mk (s.toList.map charLower)

/-- The whitespace characters Python `str.strip()` removes. -/
def isPyWhitespace (c : Char) : Bool :=
  c = ' ' || c = '\t' || c = '\n' || c = '\r' || c = '\x0b' || c = '\x0c'

/-- Python `s.strip()`: remove leading and trailing whitespace. -/
def strStrip (s : String) : String :=
  String.mk (((s.toList.dropWhile isPyWhitespace).reverse.dropWhile isPyWhitespace).reverse)

/-- Python `s.split(sep)` for a one-character separator, on char lists:
every occurrence separates, empty fields are kept. -/
def splitChar (sep : Char) : List Char → List (List Char)
  | [] => [[]]
  | c :: rest =>
    if c = sep then [] :: splitChar sep rest
    else
      match splitChar sep rest with
      | [] => [[c]]
      | g :: gs => (c :: g) :: gs

/-- Python `s.split(sep)` for a one-character separator, on strings. -/
def strSplit (sep : Char) (s : String) : List String :=
  (splitChar sep s.toList).map String.mk

/-- One observable engine call made by a pipeline while processing an asset. -/
inductive Effect where
  | eImport
  | eDecimate
  | eExport
  | eOptimizeTextures
  | eTriangulate
deriving DecidableEq, Repr

namespace BakeLod

/-- `CONFIG["skip_threshold"]` in `bake-lod.py`: assets under this many
vertices are not given an LOD1. -/
def skip_threshold : Nat := 200

/-- `CONFIG["lod_ratios"].get(category, CONFIG["lod_ratios"]["default"])`:
per-category LOD1 target ratio, with the `default` entry as fallback. -/
def lod_ratios (c : String) : ℚ :=
  if c = "tree" then 1/10
  else if c = "bush" then 3/20
  else if c = "rock" then 1/5
  else if c = "fern" then 1/5
  else if c = "flower" then 3/10
  else if c = "grass" then 0
  else if c = "mushroom" then 0
  else if c = "ivy" then 1/4
  else if c = "fallen" then 1/10
  else 3/20

/-- `CONFIG["min_vertices"].get(category, CONFIG["min_vertices"]["default"])`:
per-category minimum vertex floor (no `grass`/`mushroom` entries, so those
fall back to the `default` entry, 50). -/
def min_vertices (c : String) : Nat :=
  if c = "tree" then 100
  else if c = "bush" then 50
  else if c = "rock" then 30
  else if c = "fern" then 20
  else if c = "flower" then 10
  else if c = "ivy" then 20
  else if c = "fallen" then 80
  else 50

/-- `infer_category` from `bake-lod.py`: ordered substring rules over the
lowercased path, with the `fallen` sub-check inside the `tree` branch. -/
def infer_category (filepath : String) : String :=
  let p := strLower filepath
  if strContains p "tree" then
    (if strContains p "fallen" then "fallen" else "tree")
  else if strContains p "bush" then "bush"
  else if strContains p "rock" then "rock"
  else if strContains p "fern" then "fern"
  else if strContains p "flower" then "flower"
  else if strContains p "grass" then "grass"
  else if strContains p "mushroom" then "mushroom"
  else if strContains p "ivy" then "ivy"
  else "default"

/-- A resolved (ratio, minimum-vertex floor) pair for one work item. -/
structure Policy where
  ratio : ℚ
  minVerts : Nat
deriving DecidableEq, Repr

/-- The ratio/floor resolution inlined in `process_glb_file` (lines 309-317):
an explicit `target_ratio` overrides the table ratio but keeps the table
floor; otherwise the table entry is used, and for `lod2` the ratio is
multiplied by `0.33` and the floor becomes `max(20, floor // 2)`. -/
def resolve_policy (category level : String) (targetRatio : Option ℚ) : Policy :=
  match targetRatio with
  | some r => ⟨r, min_vertices category⟩
  | none =>
    let r := lod_ratios category
    let m := min_vertices category
    if level = "lod2" then ⟨r * (33/100), max 20 (m / 2)⟩ else ⟨r, m⟩

/-- Python `int x` for a nonnegative rational (truncation = floor). -/
def ratTrunc (q : ℚ) : Nat := (⌊q⌋).toNat

/-- `decimate_mesh` from `bake-lod.py` acting on one mesh part with `verts`
vertices.  Returns the part's new vertex count and the ratio handed to the
decimate modifier (`none` when no modifier was applied).  `engine` stands
for Blender's collapse decimation: new count of a part decimated at a
ratio. -/
def decimate_mesh (engine : Nat → ℚ → Nat) (verts : Nat) (ratio : ℚ)
    (minVerts : Nat) : Nat × Option ℚ :=
  if ratio ≤ 0 ∨ 1 ≤ ratio then (verts, none)
  else if verts < skip_threshold then (verts, none)
  else
    let target := max minVerts (ratTrunc ((verts : ℚ) * ratio))
    let actual := (target : ℚ) / (verts : ℚ)
    (engine verts actual, some actual)

/-- A source `.glb` asset: its path, filename stem, and the vertex counts of
its mesh parts as the engine would report them after import.  A failed or
empty import is the empty part list (`import_glb` catches `RuntimeError`
and returns `[]`, and `process_glb_file` bails out on `not objects`). -/
structure GlbFile where
  path : String
  stem : String
  parts : List Nat
deriving DecidableEq, Repr

/-- The dictionary `process_glb_file` returns (dry-run and success merged;
`finalVerts` holds `target_verts` for a dry run and `final_verts`
otherwise). -/
structure BakeResult where
  input : String
  category : String
  level : String
  originalVerts : Nat
  finalVerts : Nat
  dryRun : Bool
deriving DecidableEq, Repr

/-- `process_glb_file` from `bake-lod.py`: the per-work-item processor.
Returns `none` exactly where the Python returns `None` (already-LOD name,
ratio-0 category, failed/empty import, under the skip threshold), paired
with the trace of engine calls it made. -/
def process_glb_file (engine : Nat → ℚ → Nat) (dryRun : Bool) (f : GlbFile)
    (lodLevel : String) (targetRatio : Option ℚ) : Option BakeResult × List Effect :=
  if strContains (strLower f.stem) "_lod1" || strContains (strLower f.stem) "_lod2" ||
      strContains (strLower f.stem) "_lod" then
    (none, [])
  else
    let category := infer_category f.path
    let pol := resolve_policy category lodLevel targetRatio
    if pol.ratio ≤ 0 then (none, [])
    else if f.parts.isEmpty then (none, [Effect.eImport])
    else
      let originalVerts := f.parts.sum
      let thr := if lodLevel = "lod1" then skip_threshold else skip_threshold / 2
      if originalVerts < thr then (none, [Effect.eImport])
      else if dryRun then
        (some { input := f.path, category := category, level := lodLevel,
                originalVerts := originalVerts,
                finalVerts := max pol.minVerts (ratTrunc ((originalVerts : ℚ) * pol.ratio)),
                dryRun := true },
         [Effect.eImport])
      else
        let outs := f.parts.map (fun v => decimate_mesh engine v pol.ratio pol.minVerts)
        let decEffs := outs.filterMap
          (fun o => if o.2.isSome then some Effect.eDecimate else none)
        (some { input := f.path, category := category, level := lodLevel,
                originalVerts := originalVerts,
                finalVerts := (outs.map (·.1)).sum,
                dryRun := false },
         Effect.eImport :: decEffs ++ [Effect.eExport])

/-- Directory-scan filter (lines 398-401): keep only stems without
`"_lod1"` and without `"_lod"`. -/
def dirScanKeep (stem : String) : Bool :=
  !(strContains (strLower stem) "_lod1") && !(strContains (strLower stem) "_lod")

/-- Simple input-list filter (line 433): keep only stems without `"_lod1"`,
`"_lod2"` and `"_lod"`. -/
def simpleListKeep (stem : String) : Bool :=
  !(strContains (strLower stem) "_lod1") && !(strContains (strLower stem) "_lod2") &&
    !(strContains (strLower stem) "_lod")

/-- Multi-level list filter (lines 461-462): keep only stems without
`"_lod1"` and `"_lod2"` (no bare `"_lod"` check in this mode). -/
def multiLevelKeep (stem : String) : Bool :=
  !(strContains (strLower stem) "_lod1") && !(strContains (strLower stem) "_lod2")

/-- The driver `process_all_directories`, over the (already sorted) list of
files the directory glob found: apply the scan filter, process each
survivor at `lod1` with no override, and append only non-`None` results
(`if result: results.append(result)`). -/
def process_all_directories (engine : Nat → ℚ → Nat) (dryRun : Bool)
    (files : List GlbFile) : List BakeResult :=
  (files.filter (fun f => dirScanKeep f.stem)).filterMap
    (fun f => (process_glb_file engine dryRun f "lod1" none).1)

/-- One parsed record of the multi-level manifest:
`{'path': ..., 'level': ..., 'target_percent': float(...) / 100.0}`. -/
structure FileConfig where
  path : String
  level : String
  targetPercent : ℚ
deriving DecidableEq, Repr

/-- Value of a run of decimal digits, `none` on empty input or on any
non-digit character. -/
def digitsVal (cs : List Char) : Option Nat :=
  if cs.isEmpty then none
  else cs.foldl
    (fun acc c =>
      match acc with
      | none => none
      | some n => if c.isDigit then some (n * 10 + (c.toNat - 48)) else none)
    (some 0)

/-- The decimal-literal fragment of Python's `float()` (no sign, no
exponent — all the manifest format uses): `"12"`, `"12.5"`, `"12."`,
`".5"`.  `none` models `float()` raising `ValueError`. -/
def parseFloatQ (s : String) : Option ℚ :=
  let t := strStrip s
  match strSplit '.' t with
  | [a] => (digitsVal a.toList).map (fun n => (n : ℚ))
  | [a, b] =>
    if a = "" && b = "" then none
    else
      let ai := if a = "" then some 0 else digitsVal a.toList
      let bi := if b = "" then some 0 else digitsVal b.toList
      match ai, bi with
      | some n, some fr => some ((n : ℚ) + (fr : ℚ) / ((10 : ℚ) ^ b.length))
      | _, _ => none
  | _ => none

/-- The `--input-list` reader (`bake-lod.py` lines 96-112): per line, strip;
skip blanks; a line with a pipe splits on `'|'` and is kept only with at
least 3 fields (`target_percent` is the third field divided by 100);
a pipe-free line is a simple file path.  A `float()` failure propagates as
`.error` (an uncaught `ValueError` in the Python). -/
def parse_input_list : List String → Except String (List FileConfig × List String)
  | [] => .ok ([], [])
  | l :: rest =>
    let line := strStrip l
    if line = "" then parse_input_list rest
    else if strContains line "|" then
      match strSplit '|' line with
      | p0 :: p1 :: p2 :: _ =>
        (match parseFloatQ p2 with
         | some q =>
           (parse_input_list rest).map
             (fun r => (⟨p0, p1, q / 100⟩ :: r.1, r.2))
         | none => .error ("could not convert string to float: " ++ p2))
      | _ => parse_input_list rest
    else
      (parse_input_list rest).map (fun r => (r.1, line :: r.2))

end BakeLod

namespace DecimateVrm

/-- `CONFIG` of `decimate-vrm.py` (after argument parsing). -/
structure Config where
  dryRun : Bool
  targetRatio : ℚ
  targetTriangles : Option Nat
  minVertices : Nat
deriving Repr

/-- The defaults: ratio 0.06, no triangle target, floor 5000 vertices. -/
def defaultConfig : Config :=
  { dryRun := false, targetRatio := 3/50, targetTriangles := none, minVertices := 5000 }

/-- The body of `decimate_meshes` for one mesh part (lines 148-189):
parts under 100 vertices are skipped; the nominal ratio is replaced by
`min_vertices / original_verts` when the truncated target falls under the
floor, and the part is skipped when that replacement reaches 1.  Returns
the new vertex count and the modifier ratio actually applied. -/
def decimatePart (engine : Nat → ℚ → Nat) (targetRatio : ℚ) (minVertices : Nat)
    (verts : Nat) : Nat × Option ℚ :=
  if verts < 100 then (verts, none)
  else
    let target := BakeLod.ratTrunc ((verts : ℚ) * targetRatio)
    if target < minVertices then
      let actual := (minVertices : ℚ) / (verts : ℚ)
      if 1 ≤ actual then (verts, none)
      else (engine verts actual, some actual)
    else (engine verts targetRatio, some targetRatio)

/-- A source `.vrm` avatar: stem, whether import succeeds, per-part vertex
counts, and the scene triangle count the engine reports. -/
structure VrmFile where
  name : String
  stem : String
  importOk : Bool
  parts : List Nat
  triangles : Nat
deriving Repr

/-- Status values of the result dictionary in `process_vrm_file`. -/
inductive VrmStatus where
  | success
  | error
  | dryRunS
deriving DecidableEq, Repr

/-- Result dictionary of `process_vrm_file` (fields the claims mention). -/
structure VrmResult where
  file : String
  status : VrmStatus
  originalTriangles : Nat
  finalTriangles : Nat
deriving DecidableEq, Repr

/-- `process_vrm_file` from `decimate-vrm.py`: skip already-derived names;
failed import gives an `error` result; with `--target-triangles` the ratio
becomes `min 1 (target / triangles)`; dry run returns projected stats
before any transform; otherwise decimate every part and export (export
failure gives an `error` result).  `engineT` is the engine's
post-decimation scene triangle statistic. -/
def process_vrm_file (engine : Nat → ℚ → Nat) (engineT : Nat → ℚ → Nat)
    (exportOk : Bool) (cfg : Config) (f : VrmFile) : Option VrmResult × List Effect :=
  if strContains (strLower f.stem) "_optimized" || strContains (strLower f.stem) "_lod" then
    (none, [])
  else if !f.importOk then
    (some { file := f.name, status := .error, originalTriangles := 0, finalTriangles := 0 },
     [Effect.eImport])
  else
    let tr :=
      match cfg.targetTriangles with
      | some t =>
        if t ≠ 0 ∧ 0 < f.triangles then min 1 ((t : ℚ) / (f.triangles : ℚ))
        else cfg.targetRatio
      | none => cfg.targetRatio
    if cfg.dryRun then
      (some { file := f.name, status := .dryRunS, originalTriangles := f.triangles,
              finalTriangles := BakeLod.ratTrunc ((f.triangles : ℚ) * tr) },
       [Effect.eImport])
    else
      let outs := f.parts.map (decimatePart engine tr cfg.minVertices)
      let decEffs := outs.filterMap
        (fun o => if o.2.isSome then some Effect.eDecimate else none)
      if !exportOk then
        (some { file := f.name, status := .error, originalTriangles := f.triangles,
                finalTriangles := 0 },
         Effect.eImport :: decEffs)
      else
        (some { file := f.name, status := .success, originalTriangles := f.triangles,
                finalTriangles := engineT f.triangles tr },
         Effect.eImport :: decEffs ++ [Effect.eExport])

end DecimateVrm

namespace OptimizeAvatars

/-- The `Config` dataclass of `optimize-avatars.py`. -/
structure Config where
  dryRun : Bool
  lodOnly : Bool
  textureOnly : Bool
  colorMaxSize : Nat
  normalMaxSize : Nat
  lod0Triangles : Nat
  lod1Triangles : Nat
  lod2Triangles : Nat
  minVertices : Nat
deriving Repr

/-- Its default field values. -/
def defaultConfig : Config :=
  { dryRun := false, lodOnly := false, textureOnly := false,
    colorMaxSize := 2048, normalMaxSize := 1024,
    lod0Triangles := 20000, lod1Triangles := 8000, lod2Triangles := 2000,
    minVertices := 1000 }

/-- The shading roles `categorize_texture` can assign. -/
inductive TexRole where
  | color
  | normal
  | metallic
  | roughness
  | emissive
  | ao
  | unknown
deriving DecidableEq, Repr

/-- The per-link socket-name test of `categorize_texture` (lines 214-228):
first matching keyword of the lowercased socket name, `none` when the
socket name matches no keyword (the loop then moves on). -/
def roleOfSocket (s : String) : Option TexRole :=
  let t := strLower s
  if strContains t "color" || strContains t "base" || strContains t "diffuse" then
    some .color
  else if strContains t "normal" then some .normal
  else if strContains t "metallic" || strContains t "metal" then some .metallic
  else if strContains t "roughness" || strContains t "rough" then some .roughness
  else if strContains t "emission" || strContains t "emissive" then some .emissive
  else if strContains t "occlusion" || strContains t "ao" then some .ao
  else none

/-- The image-name fallback of `categorize_texture` (lines 231-241). -/
def roleOfName (n0 : String) : TexRole :=
  let n := strLower n0
  if strContains n "_d" || strContains n "diffuse" || strContains n "color" ||
      strContains n "albedo" || strContains n "base" then .color
  else if strContains n "_n" || strContains n "normal" || strContains n "norm" then .normal
  else if strContains n "_m" || strContains n "metal" || strContains n "metallic" then .metallic
  else if strContains n "_r" || strContains n "rough" || strContains n "roughness" then .roughness
  else .unknown

/-- `categorize_texture`: the first shader-socket the image feeds whose name
matches a role keyword decides the role; otherwise the image name does. -/
def categorize_texture (sockets : List String) (imgName : String) : TexRole :=
  match sockets.findSome? roleOfSocket with
  | some r => r
  | none => roleOfName imgName

/-- `resize_image` (lines 244-260) as a pure function on dimensions: images
already within the cap are untouched; otherwise the larger side becomes the
cap and the other side is scaled proportionally (Python
`int(max_size / aspect)` resp. `int(max_size * aspect)`, which is the
truncated product `max_size * other / larger`). -/
def resize_dims (w h maxSize : Nat) : Nat × Nat :=
  if w ≤ maxSize ∧ h ≤ maxSize then (w, h)
  else if h < w then (maxSize, maxSize * h / w)
  else (maxSize * w / h, maxSize)

/-- What `optimize_textures` does to a single texture. -/
inductive TexAction where
  | removed
  | kept (w h : Nat)
deriving DecidableEq, Repr

/-- The per-texture decision of `optimize_textures` (lines 274-292):
metallic / roughness / ao / unknown textures are removed; the survivors are
resized — with `color_max_size` for color and `normal_max_size` for every
other surviving role (normal AND emissive, line 288). -/
def textureAction (cfg : Config) (role : TexRole) (w h : Nat) : TexAction :=
  match role with
  | .metallic => .removed
  | .roughness => .removed
  | .ao => .removed
  | .unknown => .removed
  | .color =>
    let p := resize_dims w h cfg.colorMaxSize
    .kept p.1 p.2
  | _ =>
    let p := resize_dims w h cfg.normalMaxSize
    .kept p.1 p.2

/-- An image texture node of a material: the shader sockets it feeds (in
link order), the image name, and the image dimensions. -/
structure Texture where
  sockets : List String
  name : String
  width : Nat
  height : Nat
deriving DecidableEq, Repr

/-- A material: its node flag, its image textures, its Principled-BSDF
metallic/roughness parameters (if it has such a node). -/
structure Material where
  useNodes : Bool
  hasPrincipled : Bool
  textures : List Texture
  metallic : ℚ
  roughness : ℚ
deriving DecidableEq, Repr

/-- The effect of `optimize_textures` on one material: textures removed or
resized per `textureAction`, then (second loop, lines 303-313) Metallic set
to 0.0 and Roughness to 1.0 on every Principled BSDF node. -/
def optimize_material (cfg : Config) (m : Material) : Material :=
  if !m.useNodes then m
  else
    { m with
      textures := m.textures.filterMap (fun t =>
        match textureAction cfg (categorize_texture t.sockets t.name) t.width t.height with
        | .removed => none
        | .kept w h => some { t with width := w, height := h }),
      metallic := if m.hasPrincipled then 0 else m.metallic,
      roughness := if m.hasPrincipled then 1 else m.roughness }

/-- One mesh part inside `decimate_to_target` (lines 330-361): parts under
100 vertices are skipped, the remainder get the decimate modifier at the
scene-level ratio.  The Bool records whether the modifier was applied. -/
def decimatePart (engine : Nat → ℚ → Nat) (ratio : ℚ) (verts : Nat) : Nat × Bool :=
  if verts < 100 then (verts, false) else (engine verts ratio, true)

/-- The scene as the engine reports it: per-part vertex counts plus the
total triangle statistic. -/
structure Scene where
  parts : List Nat
  triangles : Nat
deriving Repr

/-- `decimate_to_target`: nothing happens when the scene is already at or
below the target; otherwise every part is decimated at
`target / current` (`engineT` supplies the post-transform triangle
statistic). -/
def decimate_to_target (engine : Nat → ℚ → Nat) (engineT : Nat → ℚ → Nat)
    (target : Nat) (s : Scene) : Scene × List Effect :=
  if s.triangles ≤ target then (s, [])
  else
    let r := (target : ℚ) / (s.triangles : ℚ)
    let outs := s.parts.map (decimatePart engine r)
    ({ parts := outs.map (·.1), triangles := engineT s.triangles r },
     outs.filterMap (fun o => if o.2 then some Effect.eDecimate else none))

/-- A source avatar file. -/
structure AvatarFile where
  stem : String
  importOk : Bool
  scene : Scene
deriving Repr

/-- The result dictionary of `process_avatar` (per-LOD triangle stats are
recorded only when that LOD was exported). -/
structure AvResult where
  file : String
  statusError : Bool
  lod0 : Option Nat
  lod1 : Option Nat
  lod2 : Option Nat
deriving DecidableEq, Repr

/-- One of the three LOD blocks of `process_avatar`: re-import, optimize
textures unless `--lod-only`, triangulate, optionally decimate to the
block's target, and export unless `--dry-run` (recording the LOD stats
only on export success). -/
def avatarBlock (engine engineT : Nat → ℚ → Nat) (exportOk : Bool) (cfg : Config)
    (f : AvatarFile) (target : Nat) (decimateHere : Bool) : Option Nat × List Effect :=
  let e1 : List Effect :=
    [Effect.eImport] ++
      (if !cfg.lodOnly then [Effect.eOptimizeTextures] else []) ++
      [Effect.eTriangulate]
  let d := if decimateHere then decimate_to_target engine engineT target f.scene
           else (f.scene, [])
  if !cfg.dryRun then
    if exportOk then (some d.1.triangles, e1 ++ d.2 ++ [Effect.eExport])
    else (none, e1 ++ d.2 ++ [Effect.eExport])
  else (none, e1 ++ d.2)

/-- `process_avatar` from `optimize-avatars.py`: skip already-derived names;
LOD0 runs when `not lod_only or not texture_only` (its decimation only when
`not texture_only`), LOD1/LOD2 run when `not texture_only`; a failed import
in a block that runs yields an `error` result. -/
def process_avatar (engine engineT : Nat → ℚ → Nat) (exportOk : Bool) (cfg : Config)
    (f : AvatarFile) : Option AvResult × List Effect :=
  if strContains (strLower f.stem) "_optimized" || strContains (strLower f.stem) "_lod1" ||
      strContains (strLower f.stem) "_lod2" then
    (none, [])
  else if (!cfg.lodOnly || !cfg.textureOnly) && !f.importOk then
    (some { file := f.stem, statusError := true, lod0 := none, lod1 := none, lod2 := none },
     [Effect.eImport])
  else
    let b0 : Option Nat × List Effect :=
      if !cfg.lodOnly || !cfg.textureOnly then
        avatarBlock engine engineT exportOk cfg f cfg.lod0Triangles (!cfg.textureOnly)
      else (none, [])
    let b1 : Option Nat × List Effect :=
      if !cfg.textureOnly then
        avatarBlock engine engineT exportOk cfg f cfg.lod1Triangles true
      else (none, [])
    let b2 : Option Nat × List Effect :=
      if !cfg.textureOnly then
        avatarBlock engine engineT exportOk cfg f cfg.lod2Triangles true
      else (none, [])
    (some { file := f.stem, statusError := false, lod0 := b0.1, lod1 := b1.1, lod2 := b2.1 },
     b0.2 ++ b1.2 ++ b2.2)

end OptimizeAvatars

namespace DecimateVegetation

/-- `CONFIG` of `decimate-vegetation.py`. -/
structure Config where
  dryRun : Bool
  lodRatios : List ℚ
  minFaces : Nat
  targetMaxFaces : Nat
deriving Repr

/-- Its default values: ratios `[1.0, 0.5, 0.25]`, min faces 100,
target maximum 5000. -/
def defaultConfig : Config :=
  { dryRun := false, lodRatios := [1, 1/2, 1/4], minFaces := 100, targetMaxFaces := 5000 }

/-- `decimate_mesh` of `decimate-vegetation.py` on one part's face count:
no-op for ratio ≥ 1 and for parts under `min_faces`, otherwise the engine
decimates at the given ratio. -/
def decimate_mesh (engine : Nat → ℚ → Nat) (minFaces : Nat) (faces : Nat)
    (ratio : ℚ) : Nat :=
  if 1 ≤ ratio then faces
  else if faces < minFaces then faces
  else engine faces ratio

/-- The per-LOD loop of `process_glb_file` (lines 216-244): for each
configured ratio, re-import (this `import_glb` has NO try/except — a raise
propagates), adjust the ratio when even LOD0 is over the face budget,
decimate every part, export.  Modelled in `Except`: an importer error
escapes uncaught. -/
def processLods (imp : String → Except String (List Nat)) (engine : Nat → ℚ → Nat)
    (cfg : Config) (path : String) (totalFaces : Nat) :
    List ℚ → Except String (List Effect)
  | [] => .ok []
  | ratio :: rest => do
    let objs ← imp path
    let actual :=
      if cfg.targetMaxFaces < totalFaces ∧ ratio = 1 then
        (cfg.targetMaxFaces : ℚ) / (totalFaces : ℚ)
      else ratio
    let _ := objs.map (fun fc => decimate_mesh engine cfg.minFaces fc actual)
    let effs ← processLods imp engine cfg path totalFaces rest
    .ok (Effect.eImport :: Effect.eDecimate :: Effect.eExport :: effs)

/-- `process_glb_file` of `decimate-vegetation.py`: import (uncaught raise
propagates), bail out on an empty scene, stop after statistics on
`--dry-run`, otherwise run the per-LOD loop. -/
def process_glb_file (imp : String → Except String (List Nat))
    (engine : Nat → ℚ → Nat) (cfg : Config) (path : String) :
    Except String (List Effect) := do
  let objs ← imp path
  if objs.isEmpty then return [Effect.eImport]
  let totalFaces := objs.sum
  if cfg.dryRun then return [Effect.eImport]
  else
    let effs ← processLods imp engine cfg path totalFaces cfg.lodRatios
    return Effect.eImport :: effs

/-- The driver loop of `process_directory` (lines 271-276): process files in
order with NO try/except around the per-item call, so any raise aborts the
remaining items.  On success, returns the processed file names in order. -/
def process_directory (imp : String → Except String (List Nat))
    (engine : Nat → ℚ → Nat) (cfg : Config) :
    List String → Except String (List String)
  | [] => .ok []
  | f :: rest => do
    let _ ← process_glb_file imp engine cfg f
    let done ← process_directory imp engine cfg rest
    .ok (f :: done)

end DecimateVegetation

/-! ## Helper lemmas -/

/-- The length of a `filterMap` is the number of elements on which the
function returns a value. -/
theorem length_filterMap_eq_countP {α β : Type} (f : α → Option β) :
    ∀ l : List α, (l.filterMap f).length = l.countP (fun a => (f a).isSome) := by
  intro l
  induction l with
  | nil => rfl
  | cons a t ih =>
    cases h : f a <;>
      simp [List.filterMap_cons, h, List.countP_cons, ih]

/-- Monadic bind on a successful `Except` value. -/
theorem exceptBind_ok {ε α β : Type} (a : α) (f : α → Except ε β) :
    (Except.ok a >>= f) = f a := rfl

/-- Monadic bind on a failed `Except` value propagates the error. -/
theorem exceptBind_error {ε α β : Type} (e : ε) (f : α → Except ε β) :
    ((Except.error e : Except ε α) >>= f) = .error e := rfl

/-- A `bake-lod.py` work item whose import yields no objects produces no
result dictionary, whichever level/override it is processed at. -/
theorem bake_process_none_of_empty (engine : Nat → ℚ → Nat) (dryRun : Bool)
    (f : BakeLod.GlbFile) (lodLevel : String) (targetRatio : Option ℚ)
    (h : f.parts = []) :
    (BakeLod.process_glb_file engine dryRun f lodLevel targetRatio).1 = none := by
  unfold BakeLod.process_glb_file
  split
  · rfl
  · dsimp only
    split
    · rfl
    · split
      · rfl
      · next h2 => simp [h] at h2

/-! ## Theorems for the claims -/

/-- C2 counterexample: a work item the driver consumes (it survives the
directory-scan filter and is handed to `process_glb_file`) but that is
skipped — here a 50-vertex tree, under the 200-vertex threshold — yields
ZERO results in the aggregated run (`process_glb_file` returns `None` and
the driver appends nothing), not exactly one. -/
theorem C2_counterexample :
    BakeLod.dirScanKeep "tree_small" = true ∧
    BakeLod.process_all_directories (fun v _ => v) false
        [{ path := "assets/trees/tree_small.glb", stem := "tree_small", parts := [50] }] =
      [] := by
  constructor
  · rfl
  · norm_num +decide [BakeLod.process_all_directories, BakeLod.process_glb_file,
      BakeLod.dirScanKeep, BakeLod.infer_category, BakeLod.resolve_policy,
      BakeLod.lod_ratios, BakeLod.min_vertices, BakeLod.skip_threshold,
      List.filter, List.filterMap]

/-- C2 (amended): every Work Item the driver consumes produces AT MOST one
Result — the aggregated list has exactly one entry per surviving item whose
processing returns a dictionary, and zero entries for items that are
skipped (already-derived name, ratio-0 category, failed import, under the
vertex threshold); in particular the result count never exceeds the number
of files. -/
theorem C2_amended_at_most_one_result (engine : Nat → ℚ → Nat) (dryRun : Bool)
    (files : List BakeLod.GlbFile) :
    (BakeLod.process_all_directories engine dryRun files).length =
      (files.filter (fun f => BakeLod.dirScanKeep f.stem)).countP
        (fun f => ((BakeLod.process_glb_file engine dryRun f "lod1" none).1).isSome) ∧
    (BakeLod.process_all_directories engine dryRun files).length ≤ files.length := by
  constructor
  · exact length_filterMap_eq_countP _ _
  · exact le_trans (List.length_filterMap_le _ _) (List.length_filter_le _ _)

/-- C3 counterexample: in `decimate-vegetation.py` an import exception is
not caught at the item boundary — with an importer that raises on
`bad.glb`, the batch over `[bad.glb, good.glb]` aborts with the error and
produces no per-item results at all, while the same batch without the bad
item completes; the exception was neither converted into an error result
nor did processing continue with the remaining items. -/
theorem C3_counterexample :
    DecimateVegetation.process_directory
        (fun p => if p = "bad.glb" then .error "ImportError" else .ok [500])
        (fun v _ => v) DecimateVegetation.defaultConfig ["bad.glb", "good.glb"] =
      .error "ImportError" ∧
    DecimateVegetation.process_directory
        (fun p => if p = "bad.glb" then .error "ImportError" else .ok [500])
        (fun v _ => v) DecimateVegetation.defaultConfig ["good.glb"] =
      .ok ["good.glb"] := by
  constructor
  · norm_num +decide [DecimateVegetation.process_directory,
      DecimateVegetation.process_glb_file, exceptBind_ok, exceptBind_error]
  · norm_num +decide [DecimateVegetation.process_directory,
      DecimateVegetation.process_glb_file, DecimateVegetation.processLods,
      DecimateVegetation.decimate_mesh, DecimateVegetation.defaultConfig,
      exceptBind_ok, exceptBind_error]

/-- C3 (amended): exceptions are not uniformly caught at the item
boundary.  In `decimate-vegetation.py` an import error aborts the whole
batch (the error propagates out of the driver loop, and no remaining item
is processed); in `bake-lod.py` the import error IS caught inside
`import_glb`, but the item is silently dropped — no error Result — and the
batch continues with the remaining items. -/
theorem C3_amended_exception_handling :
    (∀ (imp : String → Except String (List Nat)) (engine : Nat → ℚ → Nat)
        (cfg : DecimateVegetation.Config) (e f : String) (rest : List String),
        imp f = .error e →
        DecimateVegetation.process_directory imp engine cfg (f :: rest) = .error e) ∧
    (∀ (engine : Nat → ℚ → Nat) (dryRun : Bool) (f : BakeLod.GlbFile)
        (rest : List BakeLod.GlbFile),
        f.parts = [] →
        BakeLod.process_all_directories engine dryRun (f :: rest) =
          BakeLod.process_all_directories engine dryRun rest) := by
  constructor
  · intro imp engine cfg e f rest h
    unfold DecimateVegetation.process_directory DecimateVegetation.process_glb_file
    rw [h, exceptBind_error, exceptBind_error]
  · intro engine dryRun f rest h
    unfold BakeLod.process_all_directories
    rw [List.filter_cons]
    by_cases hk : BakeLod.dirScanKeep f.stem
    · simp only [hk, if_pos, List.filterMap_cons,
        bake_process_none_of_empty engine dryRun f "lod1" none h]
    · simp [hk]

/-- C3 witness: the amended theorem at concrete inputs — a one-item
vegetation batch whose import raises aborts with that error, and a
bake-lod batch whose first file imports empty equals the batch without
it. -/
theorem C3_amended_exception_handling_witness :
    DecimateVegetation.process_directory (fun _ => .error "boom") (fun v _ => v)
        DecimateVegetation.defaultConfig ["x.glb"] = .error "boom" ∧
    BakeLod.process_all_directories (fun v _ => v) false
        [{ path := "a.glb", stem := "a", parts := [] },
         { path := "assets/rocks/rock1.glb", stem := "rock1", parts := [300] }] =
      BakeLod.process_all_directories (fun v _ => v) false
        [{ path := "assets/rocks/rock1.glb", stem := "rock1", parts := [300] }] :=
  ⟨C3_amended_exception_handling.1 (fun _ => .error "boom") (fun v _ => v)
      DecimateVegetation.defaultConfig "boom" "x.glb" [] rfl,
   C3_amended_exception_handling.2 (fun v _ => v) false
      { path := "a.glb", stem := "a", parts := [] }
      [{ path := "assets/rocks/rock1.glb", stem := "rock1", parts := [300] }] rfl⟩

/-- `resize_image` only ever shrinks: both output dimensions are bounded by
the corresponding input dimension and by the size cap. -/
theorem resize_dims_spec (w h M : Nat) :
    (OptimizeAvatars.resize_dims w h M).1 ≤ w ∧
    (OptimizeAvatars.resize_dims w h M).2 ≤ h ∧
    (OptimizeAvatars.resize_dims w h M).1 ≤ M ∧
    (OptimizeAvatars.resize_dims w h M).2 ≤ M := by
  unfold OptimizeAvatars.resize_dims
  by_cases hc : w ≤ M ∧ h ≤ M
  · rw [if_pos hc]
    exact ⟨le_rfl, le_rfl, hc.1, hc.2⟩
  · rw [if_neg hc]
    by_cases hw : h < w
    · rw [if_pos hw]
      have hMw : M < w := by
        rcases not_and_or.mp hc with h1 | h2
        · exact not_le.mp h1
        · exact lt_trans (not_le.mp h2) hw
      have hw0 : 0 < w := lt_of_le_of_lt (Nat.zero_le M) hMw
      refine ⟨le_of_lt hMw, ?_, le_rfl, ?_⟩
      · calc M * h / w ≤ w * h / w :=
            Nat.div_le_div_right (Nat.mul_le_mul_right h (le_of_lt hMw))
          _ = h := Nat.mul_div_cancel_left h hw0
      · calc M * h / w ≤ M * w / w :=
            Nat.div_le_div_right (Nat.mul_le_mul_left M (le_of_lt hw))
          _ = M := Nat.mul_div_cancel M hw0
    · rw [if_neg hw]
      have hwh : w ≤ h := le_of_not_lt hw
      have hMh : M < h := by
        rcases not_and_or.mp hc with h1 | h2
        · exact lt_of_lt_of_le (not_le.mp h1) hwh
        · exact not_le.mp h2
      have hh0 : 0 < h := lt_of_le_of_lt (Nat.zero_le M) hMh
      refine ⟨?_, le_of_lt hMh, ?_, le_rfl⟩
      · calc M * w / h ≤ h * w / h :=
            Nat.div_le_div_right (Nat.mul_le_mul_right w (le_of_lt hMh))
          _ = w := Nat.mul_div_cancel_left w hh0
      · calc M * w / h ≤ M * h / h :=
            Nat.div_le_div_right (Nat.mul_le_mul_left M hwh)
          _ = M := Nat.mul_div_cancel M hh0

/-- C5 counterexample: an emissive texture (a 2048×2048 image feeding the
`Emission Strength` socket) is NOT retained unresized — `optimize_textures`
resizes it down to the 1024 normal-map cap, because line 288 picks
`color_max_size` only for `color` and `normal_max_size` for every other
surviving role, emissive included. -/
theorem C5_counterexample :
    OptimizeAvatars.categorize_texture ["Emission Strength"] "glow.png" =
      OptimizeAvatars.TexRole.emissive ∧
    OptimizeAvatars.textureAction OptimizeAvatars.defaultConfig .emissive 2048 2048 =
      .kept 1024 1024 ∧
    OptimizeAvatars.TexAction.kept 1024 1024 ≠ OptimizeAvatars.TexAction.kept 2048 2048 := by
  refine ⟨rfl, rfl, by decide⟩

/-- C5 (amended): the texture decision table of `optimize_textures` —
metallic, roughness, ao and unknown textures are removed; color textures
are resized under the color cap; normal AND emissive textures are resized
under the normal cap (emissive is not retained unresized); resizing only
ever shrinks (both dimensions bounded by the original and by the cap); and
after the pass every node material with a Principled BSDF has metallic 0.0
and roughness 1.0. -/
theorem C5_amended_texture_policy :
    (∀ (cfg : OptimizeAvatars.Config) (w h : Nat),
        OptimizeAvatars.textureAction cfg .metallic w h = .removed ∧
        OptimizeAvatars.textureAction cfg .roughness w h = .removed ∧
        OptimizeAvatars.textureAction cfg .ao w h = .removed ∧
        OptimizeAvatars.textureAction cfg .unknown w h = .removed) ∧
    (∀ (cfg : OptimizeAvatars.Config) (w h : Nat),
        OptimizeAvatars.textureAction cfg .color w h =
          .kept (OptimizeAvatars.resize_dims w h cfg.colorMaxSize).1
            (OptimizeAvatars.resize_dims w h cfg.colorMaxSize).2 ∧
        OptimizeAvatars.textureAction cfg .normal w h =
          .kept (OptimizeAvatars.resize_dims w h cfg.normalMaxSize).1
            (OptimizeAvatars.resize_dims w h cfg.normalMaxSize).2 ∧
        OptimizeAvatars.textureAction cfg .emissive w h =
          .kept (OptimizeAvatars.resize_dims w h cfg.normalMaxSize).1
            (OptimizeAvatars.resize_dims w h cfg.normalMaxSize).2) ∧
    (∀ w h M : Nat,
        (OptimizeAvatars.resize_dims w h M).1 ≤ w ∧
        (OptimizeAvatars.resize_dims w h M).2 ≤ h ∧
        (OptimizeAvatars.resize_dims w h M).1 ≤ M ∧
        (OptimizeAvatars.resize_dims w h M).2 ≤ M) ∧
    (∀ (cfg : OptimizeAvatars.Config) (m : OptimizeAvatars.Material),
        m.useNodes = true → m.hasPrincipled = true →
        (OptimizeAvatars.optimize_material cfg m).metallic = 0 ∧
        (OptimizeAvatars.optimize_material cfg m).roughness = 1) := by
  refine ⟨fun cfg w h => ⟨rfl, rfl, rfl, rfl⟩,
          fun cfg w h => ⟨rfl, rfl, rfl⟩,
          resize_dims_spec,
          fun cfg m h1 h2 => ?_⟩
  unfold OptimizeAvatars.optimize_material
  rw [h1]
  simp [h2]

/-- C5 witness: the amended theorem at a concrete material that uses nodes
and has a Principled BSDF — after the pass its metallic is 0 and its
roughness is 1. -/
theorem C5_amended_texture_policy_witness :
    (OptimizeAvatars.optimize_material OptimizeAvatars.defaultConfig
        { useNodes := true, hasPrincipled := true,
          textures := [{ sockets := ["Base Color"], name := "skin_d.png",
                         width := 4096, height := 4096 }],
          metallic := 1/2, roughness := 1/4 }).metallic = 0 ∧
    (OptimizeAvatars.optimize_material OptimizeAvatars.defaultConfig
        { useNodes := true, hasPrincipled := true,
          textures := [{ sockets := ["Base Color"], name := "skin_d.png",
                         width := 4096, height := 4096 }],
          metallic := 1/2, roughness := 1/4 }).roughness = 1 :=
  C5_amended_texture_policy.2.2.2 OptimizeAvatars.defaultConfig
    { useNodes := true, hasPrincipled := true,
      textures := [{ sockets := ["Base Color"], name := "skin_d.png",
                     width := 4096, height := 4096 }],
      metallic := 1/2, roughness := 1/4 } rfl rfl

/-- C6: for every category (in particular every category present in the
policy table), the resolved tier-2 (`lod2`) policy ratio with no override
equals the tier-1 (`lod1`) ratio multiplied by 0.33 — exactly, since the
embedding uses exact rationals. -/
theorem C6_lod2_ratio_is_tier1_times_033 (cat : String) :
    (BakeLod.resolve_policy cat "lod2" none).ratio =
      (BakeLod.resolve_policy cat "lod1" none).ratio * (33/100) := by
  unfold BakeLod.resolve_policy
  rw [if_pos rfl, if_neg (by decide)]

/-- C7 counterexample: for the `flower` category the tier-2 floor
`max(20, 10 // 2) = 20` is strictly greater than the tier-1 floor 10, so
the claim that every category's tier-2 floor is lower than or equal to its
tier-1 floor is false. -/
theorem C7_counterexample :
    (BakeLod.resolve_policy "flower" "lod2" none).minVerts = 20 ∧
    (BakeLod.resolve_policy "flower" "lod1" none).minVerts = 10 ∧
    ¬ (20 : Nat) ≤ 10 :=
  ⟨rfl, rfl, by decide⟩

/-- C7 (amended): for every category whose tier-1 floor is at least 20 —
which is every category in the table except `flower` — the tier-2 floor
`max(20, tier1_floor // 2)` is lower than or equal to the tier-1 floor. -/
theorem C7_amended_floor_monotone (cat : String)
    (h : 20 ≤ (BakeLod.resolve_policy cat "lod1" none).minVerts) :
    (BakeLod.resolve_policy cat "lod2" none).minVerts ≤
      (BakeLod.resolve_policy cat "lod1" none).minVerts := by
  unfold BakeLod.resolve_policy at h ⊢
  rw [if_pos rfl, if_neg (by decide)]
  rw [if_neg (by decide)] at h
  exact max_le h (Nat.div_le_self _ 2)

/-- C7 witness: the amended theorem applied to the `tree` category
(tier-1 floor 100, tier-2 floor 50). -/
theorem C7_amended_floor_monotone_witness :
    20 ≤ (BakeLod.resolve_policy "tree" "lod1" none).minVerts ∧
    (BakeLod.resolve_policy "tree" "lod2" none).minVerts ≤
      (BakeLod.resolve_policy "tree" "lod1" none).minVerts :=
  ⟨by decide, C7_amended_floor_monotone "tree" (by decide)⟩

/-- C8: parsing the multi-level manifest lines
`["foo/bar.glb|lod2|12.5", "a|b", ""]` yields exactly one configuration
with override ratio `12.5 / 100 = 1/8 = 0.125`; the 2-field line is
silently dropped (no `.error` is produced) and the blank line is
ignored. -/
theorem C8_manifest_parsing :
    BakeLod.parse_input_list ["foo/bar.glb|lod2|12.5", "a|b", ""] =
      .ok ([{ path := "foo/bar.glb", level := "lod2", targetPercent := 1/8 }], []) := by
  have h1 : BakeLod.digitsVal ['1', '2'] = some 12 := by decide
  have h2 : BakeLod.digitsVal ['5'] = some 5 := by decide
  have hf : BakeLod.parseFloatQ "12.5" = some (25/2) := by
    norm_num +decide [BakeLod.parseFloatQ, strStrip, strSplit, splitChar,
      isPyWhitespace, h1, h2]
  norm_num +decide [BakeLod.parse_input_list, hf, strStrip, strSplit, splitChar,
    isPyWhitespace, strContains, containsList, Except.map]

/-- C4 counterexample: a file carrying the `optimized` derived-output
marker passes all three loader filters of `bake-lod.py` and IS processed —
`process_glb_file` returns a result for `avatar_optimized.glb` — so the
idempotency guard does not cover the `optimized` marker in any of the
three modes. -/
theorem C4_counterexample :
    strContains "avatar_optimized" "_optimized" = true ∧
    BakeLod.dirScanKeep "avatar_optimized" = true ∧
    BakeLod.simpleListKeep "avatar_optimized" = true ∧
    BakeLod.multiLevelKeep "avatar_optimized" = true ∧
    ((BakeLod.process_glb_file (fun v _ => v) false
        { path := "assets/avatar_optimized.glb", stem := "avatar_optimized",
          parts := [300] } "lod1" none).1).isSome = true := by
  refine ⟨rfl, rfl, rfl, rfl, ?_⟩
  norm_num +decide [BakeLod.process_glb_file, BakeLod.infer_category,
    BakeLod.resolve_policy, BakeLod.lod_ratios, BakeLod.min_vertices,
    BakeLod.skip_threshold, BakeLod.decimate_mesh]

/-- C4 (amended): a filename containing the LOD marker `_lod` (which is a
substring of every LOD suffix `_lod1`, `_lod2`, `_LOD0`, …) never gets
processed in any of the three modes: the directory-scan and simple-list
filters reject it, and — although the multi-level filter only checks
`_lod1`/`_lod2` — `process_glb_file` itself rejects any `_lod` name before
the import step.  The `optimized` marker is not checked by any of the three
bake-lod modes. -/
theorem C4_amended_lod_marker_guard :
    (∀ stem : String, strContains (strLower stem) "_lod" = true →
        BakeLod.dirScanKeep stem = false ∧ BakeLod.simpleListKeep stem = false) ∧
    (∀ (engine : Nat → ℚ → Nat) (dryRun : Bool) (f : BakeLod.GlbFile)
        (level : String) (tr : Option ℚ),
        strContains (strLower f.stem) "_lod" = true →
        (BakeLod.process_glb_file engine dryRun f level tr).1 = none) := by
  constructor
  · intro stem h
    constructor
    · simp [BakeLod.dirScanKeep, h]
    · simp [BakeLod.simpleListKeep, h]
  · intro engine dryRun f level tr h
    unfold BakeLod.process_glb_file
    simp [h]

/-- C4 witness: the amended theorem at the stem `x_lod3` — a name the
multi-level filter would admit, yet the per-file processor rejects. -/
theorem C4_amended_lod_marker_guard_witness :
    (BakeLod.dirScanKeep "x_lod3" = false ∧ BakeLod.simpleListKeep "x_lod3" = false) ∧
    (BakeLod.process_glb_file (fun v _ => v) false
        { path := "x_lod3.glb", stem := "x_lod3", parts := [300] } "lod1" none).1 =
      none :=
  ⟨C4_amended_lod_marker_guard.1 "x_lod3" rfl,
   C4_amended_lod_marker_guard.2 (fun v _ => v) false
      { path := "x_lod3.glb", stem := "x_lod3", parts := [300] } "lod1" none rfl⟩

/-- C1 counterexample: in `bake-lod.py`'s `decimate_mesh` the applied ratio
is `max(min_verts, int(verts * ratio)) / verts`, and the `int(...)`
truncation makes it differ from the claimed `max(ratio, min_floor / count)`:
with 250 vertices, ratio 1/20 and floor 10 the code applies
`max(10, int(12.5)) / 250 = 12/250 = 0.048`, not
`max(0.05, 0.04) = 0.05`. -/
theorem C1_counterexample :
    (BakeLod.decimate_mesh (fun v _ => v) 250 (1/20) 10).2 = some (6/125) ∧
    (6/125 : ℚ) ≠ max (1/20 : ℚ) ((10 : ℚ) / 250) := by
  constructor
  · have h12 : BakeLod.ratTrunc ((25 : ℚ) / 2) = 12 := by
      have hfl : ⌊(25 : ℚ) / 2⌋ = 12 := by norm_num
      rw [BakeLod.ratTrunc, hfl]; rfl
    norm_num [BakeLod.decimate_mesh, BakeLod.skip_threshold, h12]
  · have hm : max (1/20 : ℚ) ((10 : ℚ) / 250) = 1/20 := max_eq_left (by norm_num)
    rw [hm]; norm_num

/-- C1 (amended): the floor guarantee holds in both cited decimation
routines.  In `bake-lod.py` the applied ratio is
`max(min_verts, int(verts * ratio)) / verts` (the nominal target count is
truncated to a whole number before the floor is taken, so the applied
ratio can fall below the nominal ratio by less than one vertex's worth),
and the target vertex count `applied_ratio * verts` is never below the
floor; in `decimate-vrm.py` the applied ratio is exactly
`max(ratio, min_vertices / verts)`; and in the spec's concrete example
(500 vertices, ratio 0.05, floor 100) the applied ratio is exactly 0.2. -/
theorem C1_amended_floor_dominance :
    (∀ (engine : Nat → ℚ → Nat) (v : Nat) (r : ℚ) (m : Nat) (a : ℚ),
        0 < v → (BakeLod.decimate_mesh engine v r m).2 = some a →
        (m : ℚ) ≤ a * (v : ℚ)) ∧
    (∀ (engine : Nat → ℚ → Nat) (tr : ℚ) (m v n : Nat) (a : ℚ),
        0 < tr → DecimateVrm.decimatePart engine tr m v = (n, some a) →
        a = max tr ((m : ℚ) / (v : ℚ))) ∧
    (∀ engine : Nat → ℚ → Nat,
        (BakeLod.decimate_mesh engine 500 (1/20) 100).2 = some (1/5)) := by
  refine ⟨?_, ?_, ?_⟩
  · intro engine v r m a hv h
    unfold BakeLod.decimate_mesh at h
    split at h
    · simp at h
    split at h
    · simp at h
    · dsimp only at h
      rw [Option.some_inj] at h
      rw [← h, div_mul_cancel₀ _ (by exact_mod_cast hv.ne' : (v : ℚ) ≠ 0)]
      exact_mod_cast le_max_left m _
  · intro engine tr m v n a htr h
    unfold DecimateVrm.decimatePart at h
    split at h
    · simp at h
    next hv =>
      have hv0 : 0 < v := lt_of_lt_of_le (by norm_num) (not_lt.mp hv)
      have hv0Q : (0 : ℚ) < (v : ℚ) := by exact_mod_cast hv0
      dsimp only at h
      split at h
      next htlt =>
        split at h
        · simp at h
        next hge =>
          have ha : a = (m : ℚ) / (v : ℚ) := by
            have h2 := congrArg Prod.snd h
            simpa using h2.symm
          have hfl : (v : ℚ) * tr < (m : ℚ) := by
            have h0 : (0 : ℤ) ≤ ⌊(v : ℚ) * tr⌋ :=
              Int.floor_nonneg.mpr (by positivity)
            have h1 : (⌊(v : ℚ) * tr⌋).toNat < m := htlt
            have h2 : ⌊(v : ℚ) * tr⌋ < (m : ℤ) := by omega
            exact_mod_cast Int.floor_lt.mp h2
          have htrle : tr ≤ (m : ℚ) / (v : ℚ) := by
            rw [le_div_iff₀ hv0Q]
            nlinarith
          rw [ha, max_eq_right htrle]
      next htge =>
        have ha : a = tr := by
          have h2 := congrArg Prod.snd h
          simpa using h2.symm
        have hfl : (m : ℚ) ≤ (v : ℚ) * tr := by
          have h0 : (0 : ℤ) ≤ ⌊(v : ℚ) * tr⌋ :=
            Int.floor_nonneg.mpr (by positivity)
          have h1 : m ≤ (⌊(v : ℚ) * tr⌋).toNat := not_lt.mp htge
          have h2 : (m : ℤ) ≤ ⌊(v : ℚ) * tr⌋ := by omega
          calc (m : ℚ) ≤ ((⌊(v : ℚ) * tr⌋ : ℤ) : ℚ) := by exact_mod_cast h2
            _ ≤ (v : ℚ) * tr := Int.floor_le _
        have hdle : (m : ℚ) / (v : ℚ) ≤ tr := by
          rw [div_le_iff₀ hv0Q]
          nlinarith
        rw [ha, max_eq_left hdle]
  · intro engine
    norm_num [BakeLod.decimate_mesh, BakeLod.ratTrunc, BakeLod.skip_threshold,
      Int.toNat_ofNat]

/-- C1 witness: the amended theorem at concrete inputs — the spec's own
example (500 vertices, ratio 1/20, floor 100) yields a target count of at
least the floor in the LOD baker, and the applied VRM ratio at those
numbers equals `max(1/20, 100/500) = 1/5`. -/
theorem C1_amended_floor_dominance_witness :
    ((100 : Nat) : ℚ) ≤ (1/5) * ((500 : Nat) : ℚ) ∧
    (1/5 : ℚ) = max (1/20 : ℚ) (((100 : Nat) : ℚ) / ((500 : Nat) : ℚ)) :=
  ⟨C1_amended_floor_dominance.1 (fun v _ => v) 500 (1/20) 100 (1/5) (by norm_num)
      (C1_amended_floor_dominance.2.2 (fun v _ => v)),
   C1_amended_floor_dominance.2.1 (fun v _ => v) (1/20) 100 500 500 (1/5) (by norm_num)
      (by norm_num [DecimateVrm.decimatePart, BakeLod.ratTrunc])⟩

/-- `pure` on `Except` is `.ok`. -/
theorem exceptPure {ε α : Type} (a : α) : (pure a : Except ε α) = .ok a := rfl

/-- In a `bake-lod.py` dry run the engine-call trace is empty or a lone
scene load — never a decimation or an export. -/
theorem bake_dry_trace (engine : Nat → ℚ → Nat) (f : BakeLod.GlbFile)
    (level : String) (tr : Option ℚ) :
    (BakeLod.process_glb_file engine true f level tr).2 = [] ∨
    (BakeLod.process_glb_file engine true f level tr).2 = [Effect.eImport] := by
  unfold BakeLod.process_glb_file
  repeat'
    first
      | (exact Or.inl rfl)
      | (exact Or.inr rfl)
      | split
      | dsimp only
      | simp_all

/-- In a `decimate-vrm.py` dry run the engine-call trace is empty or a
lone scene load. -/
theorem vrm_dry_trace (engine engineT : Nat → ℚ → Nat) (exportOk : Bool)
    (cfg : DecimateVrm.Config) (f : DecimateVrm.VrmFile) (h : cfg.dryRun = true) :
    (DecimateVrm.process_vrm_file engine engineT exportOk cfg f).2 = [] ∨
    (DecimateVrm.process_vrm_file engine engineT exportOk cfg f).2 =
      [Effect.eImport] := by
  unfold DecimateVrm.process_vrm_file
  rw [h]
  repeat'
    first
      | (exact Or.inl rfl)
      | (exact Or.inr rfl)
      | split

/-- In a `decimate-vegetation.py` dry run a successful per-file trace is a
lone import. -/
theorem veg_dry_trace (imp : String → Except String (List Nat))
    (engine : Nat → ℚ → Nat) (cfg : DecimateVegetation.Config) (path : String)
    (effs : List Effect) (h : cfg.dryRun = true)
    (hok : DecimateVegetation.process_glb_file imp engine cfg path = .ok effs) :
    effs = [Effect.eImport] := by
  unfold DecimateVegetation.process_glb_file at hok
  cases himp : imp path with
  | error e =>
    rw [himp, exceptBind_error] at hok
    exact absurd hok (by simp)
  | ok objs =>
    rw [himp, exceptBind_ok, h] at hok
    repeat'
      first
        | (rw [exceptPure] at hok; injection hok with h2; exact h2.symm)
        | split at hok
        | (dsimp only at hok)
        | simp_all

/-- The decimation pass of `optimize-avatars.py` records only decimation
effects, never an export. -/
theorem eExport_notin_decimate_trace (engine engineT : Nat → ℚ → Nat)
    (target : Nat) (s : OptimizeAvatars.Scene) :
    Effect.eExport ∉ (OptimizeAvatars.decimate_to_target engine engineT target s).2 := by
  unfold OptimizeAvatars.decimate_to_target
  split
  · simp
  · dsimp only
    intro hmem
    rw [List.mem_filterMap] at hmem
    obtain ⟨o, -, ho⟩ := hmem
    split at ho
    · simp at ho
    · simp at ho

/-- One LOD block of `process_avatar` records no export effect on a dry
run. -/
theorem eExport_notin_avatarBlock_dry (engine engineT : Nat → ℚ → Nat)
    (exportOk : Bool) (cfg : OptimizeAvatars.Config) (f : OptimizeAvatars.AvatarFile)
    (target : Nat) (dec : Bool) (h : cfg.dryRun = true) :
    Effect.eExport ∉
      (OptimizeAvatars.avatarBlock engine engineT exportOk cfg f target dec).2 := by
  unfold OptimizeAvatars.avatarBlock
  rw [h]
  by_cases hl : cfg.lodOnly <;> by_cases hd : dec <;>
    simp [hl, hd, List.mem_append, eExport_notin_decimate_trace]

/-- `process_avatar` records no export effect on a dry run. -/
theorem eExport_notin_process_avatar_dry (engine engineT : Nat → ℚ → Nat)
    (exportOk : Bool) (cfg : OptimizeAvatars.Config) (f : OptimizeAvatars.AvatarFile)
    (h : cfg.dryRun = true) :
    Effect.eExport ∉
      (OptimizeAvatars.process_avatar engine engineT exportOk cfg f).2 := by
  have eblock : ∀ (target : Nat) (dec : Bool),
      Effect.eExport ∉
        (OptimizeAvatars.avatarBlock engine engineT exportOk cfg f target dec).2 :=
    fun target dec => eExport_notin_avatarBlock_dry engine engineT exportOk cfg f
      target dec h
  unfold OptimizeAvatars.process_avatar
  split
  · simp
  · split
    · simp
    · cases hlo : cfg.lodOnly <;> cases hto : cfg.textureOnly <;>
        simp [hlo, hto, List.mem_append, eblock]

/-- C9 counterexample: with `--dry-run` set, `optimize-avatars.py` still
invokes the texture-optimization pass and the mesh decimation on the
loaded scene (only the export is skipped): the engine-call trace of
`process_avatar` on a 50000-triangle avatar contains both transform
effects while the dry-run flag is set, and no export. -/
theorem C9_counterexample :
    ({ OptimizeAvatars.defaultConfig with dryRun := true } :
        OptimizeAvatars.Config).dryRun = true ∧
    Effect.eOptimizeTextures ∈
      (OptimizeAvatars.process_avatar (fun v _ => v) (fun t _ => t) true
        { OptimizeAvatars.defaultConfig with dryRun := true }
        { stem := "avatar", importOk := true,
          scene := { parts := [5000], triangles := 50000 } }).2 ∧
    Effect.eDecimate ∈
      (OptimizeAvatars.process_avatar (fun v _ => v) (fun t _ => t) true
        { OptimizeAvatars.defaultConfig with dryRun := true }
        { stem := "avatar", importOk := true,
          scene := { parts := [5000], triangles := 50000 } }).2 ∧
    Effect.eExport ∉
      (OptimizeAvatars.process_avatar (fun v _ => v) (fun t _ => t) true
        { OptimizeAvatars.defaultConfig with dryRun := true }
        { stem := "avatar", importOk := true,
          scene := { parts := [5000], triangles := 50000 } }).2 := by
  refine ⟨rfl, ?_, ?_, ?_⟩ <;>
    decide

/-- C9 (amended): `--dry-run` suppresses every transform and export in
`bake-lod.py`, `decimate-vrm.py` and `decimate-vegetation.py` (their
dry-run traces contain no decimation and no export); in
`optimize-avatars.py` it suppresses only the export — the texture pass and
the decimation still run on the in-memory scene (see the
counterexample). -/
theorem C9_amended_dry_run :
    (∀ (engine : Nat → ℚ → Nat) (f : BakeLod.GlbFile) (level : String)
        (tr : Option ℚ),
        Effect.eDecimate ∉ (BakeLod.process_glb_file engine true f level tr).2 ∧
        Effect.eExport ∉ (BakeLod.process_glb_file engine true f level tr).2) ∧
    (∀ (engine engineT : Nat → ℚ → Nat) (exportOk : Bool)
        (cfg : DecimateVrm.Config) (f : DecimateVrm.VrmFile), cfg.dryRun = true →
        Effect.eDecimate ∉
          (DecimateVrm.process_vrm_file engine engineT exportOk cfg f).2 ∧
        Effect.eExport ∉
          (DecimateVrm.process_vrm_file engine engineT exportOk cfg f).2) ∧
    (∀ (imp : String → Except String (List Nat)) (engine : Nat → ℚ → Nat)
        (cfg : DecimateVegetation.Config) (path : String) (effs : List Effect),
        cfg.dryRun = true →
        DecimateVegetation.process_glb_file imp engine cfg path = .ok effs →
        Effect.eDecimate ∉ effs ∧ Effect.eExport ∉ effs) ∧
    (∀ (engine engineT : Nat → ℚ → Nat) (exportOk : Bool)
        (cfg : OptimizeAvatars.Config) (f : OptimizeAvatars.AvatarFile),
        cfg.dryRun = true →
        Effect.eExport ∉
          (OptimizeAvatars.process_avatar engine engineT exportOk cfg f).2) := by
  refine ⟨?_, ?_, ?_, eExport_notin_process_avatar_dry⟩
  · intro engine f level tr
    rcases bake_dry_trace engine f level tr with h | h <;> rw [h] <;> simp
  · intro engine engineT exportOk cfg f h
    rcases vrm_dry_trace engine engineT exportOk cfg f h with h2 | h2 <;>
      rw [h2] <;> simp
  · intro imp engine cfg path effs h hok
    rw [veg_dry_trace imp engine cfg path effs h hok]
    simp

/-- C9 witness: the amended theorem at concrete dry runs of each
pipeline. -/
theorem C9_amended_dry_run_witness :
    (Effect.eDecimate ∉ (BakeLod.process_glb_file (fun v _ => v) true
        { path := "assets/rocks/r1.glb", stem := "r1", parts := [300] }
        "lod1" none).2 ∧
     Effect.eExport ∉ (BakeLod.process_glb_file (fun v _ => v) true
        { path := "assets/rocks/r1.glb", stem := "r1", parts := [300] }
        "lod1" none).2) ∧
    (Effect.eDecimate ∉ (DecimateVrm.process_vrm_file (fun v _ => v) (fun t _ => t)
        true { DecimateVrm.defaultConfig with dryRun := true }
        { name := "a.vrm", stem := "a", importOk := true, parts := [9000],
          triangles := 40000 }).2 ∧
     Effect.eExport ∉ (DecimateVrm.process_vrm_file (fun v _ => v) (fun t _ => t)
        true { DecimateVrm.defaultConfig with dryRun := true }
        { name := "a.vrm", stem := "a", importOk := true, parts := [9000],
          triangles := 40000 }).2) ∧
    (Effect.eDecimate ∉ ([Effect.eImport] : List Effect) ∧
     Effect.eExport ∉ ([Effect.eImport] : List Effect)) ∧
    Effect.eExport ∉ (OptimizeAvatars.process_avatar (fun v _ => v) (fun t _ => t)
        true { OptimizeAvatars.defaultConfig with dryRun := true }
        { stem := "b", importOk := true,
          scene := { parts := [5000], triangles := 50000 } }).2 :=
  ⟨C9_amended_dry_run.1 (fun v _ => v)
      { path := "assets/rocks/r1.glb", stem := "r1", parts := [300] } "lod1" none,
   C9_amended_dry_run.2.1 (fun v _ => v) (fun t _ => t) true
      { DecimateVrm.defaultConfig with dryRun := true }
      { name := "a.vrm", stem := "a", importOk := true, parts := [9000],
        triangles := 40000 } rfl,
   C9_amended_dry_run.2.2.1 (fun _ => .ok [500]) (fun v _ => v)
      { DecimateVegetation.defaultConfig with dryRun := true } "p.glb"
      [Effect.eImport] rfl rfl,
   C9_amended_dry_run.2.2.2 (fun v _ => v) (fun t _ => t) true
      { OptimizeAvatars.defaultConfig with dryRun := true }
      { stem := "b", importOk := true,
        scene := { parts := [5000], triangles := 50000 } } rfl⟩

/-- C10: in every pipeline variant, a mesh part below the per-part cutoff
(100 vertices in `decimate-vrm.py` and `optimize-avatars.py`, the
200-vertex `skip_threshold` in `bake-lod.py`) is left completely unchanged
by the decimation routine (same vertex count, no modifier applied), even
for a requested ratio in (0, 1). -/
theorem C10_small_parts_untouched :
    (∀ (engine : Nat → ℚ → Nat) (v : Nat) (r : ℚ) (m : Nat),
        0 < r → r < 1 → v < BakeLod.skip_threshold →
        BakeLod.decimate_mesh engine v r m = (v, none)) ∧
    (∀ (engine : Nat → ℚ → Nat) (tr : ℚ) (m v : Nat),
        v < 100 → DecimateVrm.decimatePart engine tr m v = (v, none)) ∧
    (∀ (engine : Nat → ℚ → Nat) (r : ℚ) (v : Nat),
        v < 100 → OptimizeAvatars.decimatePart engine r v = (v, false)) := by
  refine ⟨?_, ?_, ?_⟩
  · intro engine v r m hr hr1 hv
    unfold BakeLod.decimate_mesh
    rw [if_neg (by push_neg; exact ⟨hr, hr1⟩), if_pos hv]
  · intro engine tr m v hv
    unfold DecimateVrm.decimatePart
    rw [if_pos hv]
  · intro engine r v hv
    unfold OptimizeAvatars.decimatePart
    rw [if_pos hv]

/-- C10 witness: concrete small parts (150 verts for the LOD baker with
ratio 1/2, 60 and 80 verts for the avatar pipelines) pass through each
decimation routine unchanged. -/
theorem C10_small_parts_untouched_witness :
    BakeLod.decimate_mesh (fun v _ => v) 150 (1/2) 30 = (150, none) ∧
    DecimateVrm.decimatePart (fun v _ => v) (3/50) 5000 60 = (60, none) ∧
    OptimizeAvatars.decimatePart (fun v _ => v) (2/5) 80 = (80, false) :=
  ⟨C10_small_parts_untouched.1 (fun v _ => v) 150 (1/2) 30 (by norm_num) (by norm_num)
      (by decide),
   C10_small_parts_untouched.2.1 (fun v _ => v) (3/50) 5000 60 (by decide),
   C10_small_parts_untouched.2.2 (fun v _ => v) (2/5) 80 (by decide)⟩

end Hyperscape
